import Mathlib

/-!
Verification of the deepDemoV2 repository against its specification.

The Python sources are shallowly embedded: pure fragments become Lean
functions, Python strings are modelled as `List Char`, byte strings as
`List Nat` (each element `< 256`), exceptions as `Except`, and the
effectful fragments (the outpaint poll loop, the orchestrator dispatch,
the generation download loop) become explicit functions from scripted
environment responses to outcomes plus an effect trace.
-/

namespace DeepDemo

/-! ## Outpaint poll loop: `AliyunImageExtender.get_task_result`
    (src/aliyunImageExtender.py lines 96-173)

The loop is driven by wall-clock time (`time.time() - start`), a scripted
sequence of poll responses (one per `requests.get` of the status URL) and
a scripted sequence of download-attempt outcomes (one per `requests.get`
of the result URL).  Durations are in seconds; `time.sleep` calls add to
the elapsed time.  Printing, `os.makedirs`, the result-file write and the
destination-filename derivation (lines 127-131) have no influence on the
control flow modelled here; a scripted `SUCCEEDED` response is taken to
carry a well-formed first result URL, as in the claims' scenarios. -/

/-- Arguments of `get_task_result`: `timeout` (default 300), `interval`
(default 3) and `max_retries` (default 3), all in the source's units. -/
structure PollConfig where
  timeout : Nat
  interval : Nat
  max_retries : Nat
deriving DecidableEq

/-- The default argument values of `get_task_result`. -/
def defaultPollConfig : PollConfig := ⟨300, 3, 3⟩

/-- One scripted response to the status query `requests.get(url, ...)`:
either the call raises `requests.exceptions.RequestException` (`exn`), or
it returns a parsed body whose `output.task_status` is `s` (`status`).
`dur` is the wall-clock time the call consumed. -/
inductive PollEvent where
  | exn (dur : Nat)
  | status (s : String) (dur : Nat)
deriving DecidableEq

/-- How `get_task_result` terminates. -/
inductive PollOutcome where
  /-- the result dict is returned; `attempt` is the 1-based download
  attempt (`i + 1`) on which the result GET succeeded -/
  | Downloaded (attempt : Nat)
  /-- `RuntimeError("扩图失败: ...")` on `task_status == "FAILED"` (line 161) -/
  | OutpaintFailed
  /-- `RuntimeError("图片下载失败: ...")` after exhausting download retries (line 157) -/
  | DownloadFailed
  /-- `RuntimeError("查询任务状态失败次数过多: ...")` (line 168) -/
  | PollingFailed
  /-- `TimeoutError("扩图超时, ...")` after the while condition fails (line 173) -/
  | TimedOut
  /-- artifact of the embedding: the scripted responses ran out while the
  loop wanted another poll; never reached in any theorem below -/
  | ScriptEnd
deriving DecidableEq

/-- Observable counters of a run: final elapsed wall-clock time, final
value of the `retries` variable, number of `time.sleep(interval)` calls
executed (lines 163 and 171) and number of `time.sleep(2)` download
backoff calls executed (line 155). -/
structure RunStats where
  elapsed : Nat
  retries : Nat
  intervalSleeps : Nat
  backoffSleeps : Nat
deriving DecidableEq

/-- Result of the inner download loop `for i in range(max_retries)`
(lines 134-157). -/
inductive DownloadResult where
  /-- a GET succeeded at 0-based index `attempt - 1`; the file was
  written and the result dict returned -/
  | ok (attempt : Nat) (backoffs : Nat)
  /-- `RuntimeError("图片下载失败: ...")` raised on the last index -/
  | err (backoffs : Nat)
  /-- the `for` body never ran (`max_retries = 0`): control falls through
  to the `FAILED` check and the interval sleep -/
  | skip
deriving DecidableEq

/-- The download loop of `get_task_result` (lines 134-157), from index `i`
with `backoffs` backoff sleeps already performed.  `dl j` scripts whether
the `j`-th `requests.get(result_url, ...)` succeeds (`true`) or raises
`requests.exceptions.RequestException` (`false`). -/
def download_from (max_retries i backoffs : Nat) (dl : Nat → Bool) : DownloadResult :=
  if _h : i < max_retries then
    if dl i then .ok (i + 1) backoffs
    else if i < max_retries - 1 then download_from max_retries (i + 1) (backoffs + 1) dl
    else .err backoffs
  else .skip
termination_by max_retries - i
decreasing_by omega

/-- The `while time.time() - start < timeout` loop of `get_task_result`
(lines 117-173).  `script` supplies one `PollEvent` per status query and
`dl` the download-attempt outcomes; `elapsed`, `retries`,
`intervalSleeps` and `backoffSleeps` are the state at the top of the
current iteration (all `0` on entry at line 117). -/
def poll_loop (cfg : PollConfig) (script : List PollEvent) (dl : Nat → Bool)
    (elapsed retries intervalSleeps backoffSleeps : Nat) : PollOutcome × RunStats :=
  if elapsed < cfg.timeout then
    match script with
    | [] => (.ScriptEnd, ⟨elapsed, retries, intervalSleeps, backoffSleeps⟩)
    | .exn dur :: rest =>
      -- `except requests.exceptions.RequestException` (lines 165-171)
      if retries + 1 > cfg.max_retries then
        (.PollingFailed, ⟨elapsed + dur, retries + 1, intervalSleeps, backoffSleeps⟩)
      else
        poll_loop cfg rest dl (elapsed + dur + cfg.interval) (retries + 1)
          (intervalSleeps + 1) backoffSleeps
    | .status s dur :: rest =>
      if s = "SUCCEEDED" then
        match download_from cfg.max_retries 0 0 dl with
        | .ok attempt b =>
          (.Downloaded attempt, ⟨elapsed + dur, retries, intervalSleeps, backoffSleeps + b⟩)
        | .err b =>
          (.DownloadFailed, ⟨elapsed + dur, retries, intervalSleeps, backoffSleeps + b⟩)
        | .skip =>
          -- `max_retries = 0`: fall through to the FAILED check (false here)
          -- and `time.sleep(interval)` (line 163)
          poll_loop cfg rest dl (elapsed + dur + cfg.interval) retries
            (intervalSleeps + 1) backoffSleeps
      else if s = "FAILED" then
        (.OutpaintFailed, ⟨elapsed + dur, retries, intervalSleeps, backoffSleeps⟩)
      else
        -- any other status (e.g. PENDING/RUNNING): `time.sleep(interval)`, next iteration
        poll_loop cfg rest dl (elapsed + dur + cfg.interval) retries
          (intervalSleeps + 1) backoffSleeps
  else
    (.TimedOut, ⟨elapsed, retries, intervalSleeps, backoffSleeps⟩)

/-! ## Intent classifier: `IntentClassifier.classify_intent`
    (src/intent_classifier.py lines 38-87)

Python strings are modelled as `List Char`.  The remote completion call
`self.client.chat.completions.create(...)` is scripted: `.error e` models
the call raising an exception `e`, `.ok cs` models a response whose
choices carry the message contents `cs`. -/

/-- `IntentType` enum (src/intent_classifier.py lines 8-12). -/
inductive IntentType where
  | IMAGE_GENERATION
  | OUTPAINTING
  | OTHER
deriving DecidableEq

/-- Python `str.strip()`. -/
def pyStrip (l : List Char) : List Char :=
  ((l.dropWhile Char.isWhitespace).reverse.dropWhile Char.isWhitespace).reverse

/-- Python `needle in hay` on strings: substring containment. -/
def strContains (hay needle : List Char) : Bool := decide (needle <:+: hay)

/-- The body of the `try` block of `classify_intent` (lines 67-82),
without the `except` handler: a transport failure (`.error` input) or an
empty `choices` list (`result.choices[0]` raising `IndexError`)
propagates as an `Except.error`.  Python's full-Unicode `str.upper()` is
modelled with `Char.toUpper`, which agrees on the ASCII label tokens
being searched for. -/
def classify_intent_body (call : Except String (List (List Char))) :
    Except String IntentType :=
  match call with
  | .error e => .error e
  | .ok choices =>
    match choices with
    | [] => .error "IndexError: list index out of range"
    | content :: _ =>
      let reply := (pyStrip content).map Char.toUpper
      if strContains reply "IMAGE_GENERATION".toList then .ok .IMAGE_GENERATION
      else if strContains reply "OUTPAINTING".toList then .ok .OUTPAINTING
      else .ok .OTHER

/-- `classify_intent` with its `except Exception: return IntentType.OTHER`
wrapper (lines 84-87). -/
def classify_intent (call : Except String (List (List Char))) : IntentType :=
  match classify_intent_body call with
  | .ok i => i
  | .error _ => .OTHER

/-! ## Orchestrator `OUTPAINTING` branch of `on_send_button_click`
    (src/deepImageDemo.py lines 365-379)

The branch runs after the intent has already been classified as
`OUTPAINTING`.  Its only effects are `chat_history` inserts (`messages`)
and, when the guard passes, starting a worker thread that calls
`extend_image(query, app_state.last_generated_image, chat_history)`
(`extender_calls` records the image path passed).  The extension client
is the only network-touching component reachable from this branch, so
`extender_calls = []` means zero network calls are issued by it. -/

/-- Effects of the `OUTPAINTING` dispatch branch. -/
structure OutpaintDispatch where
  messages : List (List Char)
  extender_calls : List (List Char)
deriving DecidableEq

/-- Insert at line 366. -/
def outpaint_announce_message : List Char := "助手: 正在扩展图片...\n\n".toList

/-- Insert at line 372. -/
def outpaint_guidance_message : List Char :=
  "助手: 未找到可扩展的图像，请先生成一张图像。\n\n".toList

/-- The `elif intentEnum == IntentType.OUTPAINTING` branch (lines
365-379): `if app_state.last_generated_image is None or not
os.path.exists(app_state.last_generated_image)` renders the guidance
message and returns; otherwise a thread running `extend_image` on the
pointer is started.  `path_exists` models `os.path.exists`. -/
def dispatch_outpainting (last_generated_image : Option (List Char))
    (path_exists : List Char → Bool) : OutpaintDispatch :=
  match last_generated_image with
  | none => ⟨[outpaint_announce_message, outpaint_guidance_message], []⟩
  | some p =>
    if path_exists p then ⟨[outpaint_announce_message], [p]⟩
    else ⟨[outpaint_announce_message, outpaint_guidance_message], []⟩

/-! ## Outpaint request construction
    (src/deepImageDemo.py lines 200-263; src/aliyunImageExtender.py lines 59-77)

`submit_extend_task` builds its `parameters` object from the `**kwargs`
it receives; the orchestrator's `extend_image` supplies those kwargs.
Python numbers are modelled as exact rationals (1.2 = 6/5). -/

/-- A Python keyword-argument value. -/
inductive PyVal where
  | str (s : List Char)
  | num (q : ℚ)
deriving DecidableEq

/-- `**kwargs` as an association list. -/
abbrev Kwargs := List (List Char × PyVal)

/-- Python `kwargs.get(key, default)`. -/
def kwargs_get (kw : Kwargs) (k : List Char) (d : PyVal) : PyVal :=
  (kw.lookup k).getD d

/-- The `"parameters"` object of the request `data` built by
`submit_extend_task` (src/aliyunImageExtender.py lines 66-77). -/
structure OutpaintRequestParameters where
  top_scale : PyVal
  bottom_scale : PyVal
  left_scale : PyVal
  right_scale : PyVal
  n : PyVal
  seed : Option PyVal
deriving DecidableEq

/-- Build the request parameters from `**kwargs` exactly as
`submit_extend_task` does: every per-edge scale defaults to 1.2, `n`
defaults to 1, `seed` is added only when present in kwargs. -/
def submit_request_parameters (kw : Kwargs) : OutpaintRequestParameters where
  top_scale := kwargs_get kw "top_scale".toList (.num (6 / 5))
  bottom_scale := kwargs_get kw "bottom_scale".toList (.num (6 / 5))
  left_scale := kwargs_get kw "left_scale".toList (.num (6 / 5))
  right_scale := kwargs_get kw "right_scale".toList (.num (6 / 5))
  n := kwargs_get kw "n".toList (.num 1)
  seed := kw.lookup "seed".toList

/-- `parse_outpainting_direction` (src/deepImageDemo.py lines 247-263).
Python's full-Unicode `str.lower()` is modelled with `Char.toLower`,
which agrees on the ASCII keywords and is the identity on the CJK
keywords compared against. -/
def parse_outpainting_direction (prompt : List Char) : List Char :=
  let p := prompt.map Char.toLower
  if strContains p "左".toList || strContains p "left".toList then "left".toList
  else if strContains p "右".toList || strContains p "right".toList then "right".toList
  else if strContains p "上".toList || strContains p "top".toList then "top".toList
  else if strContains p "下".toList || strContains p "bottom".toList then "bottom".toList
  else if strContains p "四".toList || strContains p "all".toList
      || strContains p "周围".toList then "all".toList
  else "all".toList

/-- The keyword arguments the orchestrator's `extend_image` passes to
`app_state.extender.extend_image` (src/deepImageDemo.py lines 211-217),
beyond the positional `file_path` and `prompt`; they are forwarded
unchanged to `submit_extend_task` as `**kwargs`. -/
def demo_extend_kwargs (direction save_dir : List Char) : Kwargs :=
  [("direction".toList, .str direction),
   ("save_dir".toList, .str save_dir),
   ("file_prefix".toList, .str "extended".toList)]

/-! ## Orchestrator `extend_image` against the extension client's
    return value (src/deepImageDemo.py lines 200-244;
    src/aliyunImageExtender.py lines 145-150)

`AliyunImageExtender.extend_image` returns the dict built at
src/aliyunImageExtender.py lines 145-150, whose keys are the strings
`local_file`, `result_url`, `task_info`, `file_size`.  The orchestrator
indexes this value with the integer `0` (`saved_files[0]`).  -/

/-- A Python dict key: either a string or an int. -/
inductive PyKey where
  | s (k : List Char)
  | i (k : Nat)
deriving DecidableEq

/-- A Python value as far as the modelled code inspects it. -/
inductive PyObj where
  | str (s : List Char)
  | num (q : ℚ)
  | dict (entries : List (PyKey × PyObj))

/-- Python `repr` of a key, which is `str(KeyError(key))`. -/
def py_key_repr : PyKey → List Char
  | .i n => (toString n).toList
  | .s k => '\'' :: (k ++ ['\''])

/-- Python `d[key]` on a dict: the value when the key is present,
`KeyError` otherwise. -/
def py_dict_get (d : List (PyKey × PyObj)) (k : PyKey) : Except (List Char) PyObj :=
  match d.lookup k with
  | some v => .ok v
  | none => .error (py_key_repr k)

/-- The success return value of `get_task_result`
(src/aliyunImageExtender.py lines 145-150). -/
def extend_result_dict (local_file result_url : List Char)
    (task_info : List (PyKey × PyObj)) (file_size : ℚ) : List (PyKey × PyObj) :=
  [(.s "local_file".toList, .str local_file),
   (.s "result_url".toList, .str result_url),
   (.s "task_info".toList, .dict task_info),
   (.s "file_size".toList, .num file_size)]

/-- One observable effect of the orchestrator's `extend_image` on the
chat surface. -/
inductive RenderEvent where
  | text (s : List Char)
  | thumbnail (path : List Char)
  | openFullImageButton
deriving DecidableEq

/-- The orchestrator's `extend_image` (src/deepImageDemo.py lines
200-244), given the result of the `app_state.extender.extend_image`
call: `.error e` models that call raising an exception whose `str` is
`e`, `.ok d` models it returning the dict `d`.  Returns the rendered
events and the new value stored into `app_state.last_generated_image`
(`none` = left unchanged).  The `saved_files[0]` subscript at line 221
is evaluated inside the `try`, so a `KeyError` falls into the
`except Exception` handler at lines 241-244; the `.ok` value of the
subscript (unreachable for the dict the client actually returns) leads
to the thumbnail, the `打开完整图像` button and the pointer update of
lines 220-237. -/
def demo_extend_image (prompt : List Char)
    (extender_result : Except (List Char) (List (PyKey × PyObj))) :
    List RenderEvent × Option (List Char) :=
  match extender_result with
  | .error e =>
    ([.text ("图像扩展过程中发生错误: ".toList ++ e ++ ['\n'])], none)
  | .ok saved_files =>
    if saved_files.isEmpty then
      ([.text "\n\n图像扩展失败\n\n".toList], none)
    else
      match py_dict_get saved_files (.i 0) with
      | .error e =>
        ([.text ("\n\n已扩展图像: ".toList ++ prompt ++ ['\n']),
          .text ("图像扩展过程中发生错误: ".toList ++ e ++ ['\n'])], none)
      | .ok v =>
        match v with
        | .str p =>
          ([.text ("\n\n已扩展图像: ".toList ++ prompt ++ ['\n']),
            .thumbnail p, .openFullImageButton, .text "\n\n".toList], some p)
        | _ =>
          ([.text ("\n\n已扩展图像: ".toList ++ prompt ++ ['\n'])], none)

/-! ## Image generation client: `AliyunImageGenerator.generate_image`
    (src/imageSynthesis.py lines 27-84)

Only the `rsp.status_code == HTTPStatus.OK` branch (lines 61-74) is in
scope: it iterates the result URLs, derives a destination filename from
each URL, downloads each with a single bare `requests.get(result.url)`
whose response object is only read through `.content`, writes those
bytes, and collects the paths. -/

/-- A `requests` response as far as the modelled code can observe it. -/
structure HttpResponse where
  status_code : Nat
  content : List Nat
deriving DecidableEq

/-- Value of an ASCII hex digit. -/
def hex_digit_val (c : Char) : Option Nat :=
  if '0' ≤ c ∧ c ≤ '9' then some (c.toNat - '0'.toNat)
  else if 'a' ≤ c ∧ c ≤ 'f' then some (c.toNat - 'a'.toNat + 10)
  else if 'A' ≤ c ∧ c ≤ 'F' then some (c.toNat - 'A'.toNat + 10)
  else none

/-- `urllib.parse.unquote` on ASCII input: decode `%XX` escapes, leaving
malformed escapes as-is. -/
def percent_decode : List Char → List Char
  | '%' :: a :: b :: rest =>
    match hex_digit_val a, hex_digit_val b with
    | some x, some y => Char.ofNat (16 * x + y) :: percent_decode rest
    | _, _ => '%' :: percent_decode (a :: b :: rest)
  | c :: rest => c :: percent_decode rest
  | [] => []
termination_by l => l.length

/-- `urlparse(url).path` for the absolute `scheme://host/path` URLs the
vendor returns: strip the scheme and network location, then the query
and the fragment. -/
def url_path (url : List Char) : List Char :=
  let afterScheme :=
    if (url.takeWhile (· ≠ '/')).contains ':' then (url.dropWhile (· ≠ ':')).drop 1
    else url
  let afterNetloc :=
    match afterScheme with
    | '/' :: '/' :: rest => rest.dropWhile (· ≠ '/')
    | other => other
  (afterNetloc.takeWhile (· ≠ '?')).takeWhile (· ≠ '#')

/-- `PurePosixPath(p).parts[-1]`: the last nonempty `/`-separated
component (`/` for the bare root path; an empty path, which would raise
`IndexError`, does not arise from the URLs in scope). -/
def posix_last_part (p : List Char) : List Char :=
  match ((p.splitOn '/').filter (fun s => !s.isEmpty)).getLast? with
  | some s => s
  | none => ['/']

/-- Line 65: `PurePosixPath(unquote(urlparse(result.url).path)).parts[-1]`. -/
def gen_result_basename (url : List Char) : List Char :=
  posix_last_part (percent_decode (url_path url))

/-- Lines 67-68: `f"{file_prefix}_{i}_{file_name}"` joined onto
`save_dir` (`os.path.join` modelled with `/`). -/
def gen_save_path (save_dir pfx : List Char) (i : Nat) (url : List Char) : List Char :=
  save_dir ++ '/' :: (pfx ++ '_' :: ((toString i).toList ++ '_' :: gen_result_basename url))

/-- The download loop of the OK branch (lines 63-74) from result index
`i`: returns the `saved_files` list, the file writes performed as
`(path, bytes)` pairs, and the `requests.get` calls issued, by URL in
order.  `get` scripts the HTTP responses. -/
def generate_ok_from (save_dir pfx : List Char) (get : List Char → HttpResponse)
    (i : Nat) :
    List (List Char) → List (List Char) × List (List Char × List Nat) × List (List Char)
  | [] => ([], [], [])
  | url :: rest =>
    let r := generate_ok_from save_dir pfx get (i + 1) rest
    (gen_save_path save_dir pfx i url :: r.1,
     (gen_save_path save_dir pfx i url, (get url).content) :: r.2.1,
     url :: r.2.2)

/-- The whole OK branch, starting at `enumerate` index 0. -/
def generate_ok_branch (save_dir pfx : List Char) (urls : List (List Char))
    (get : List Char → HttpResponse) :
    List (List Char) × List (List Char × List Nat) × List (List Char) :=
  generate_ok_from save_dir pfx get 0 urls

/-! ## Base64 image codec: `Base64ImageProcessor`
    (src/utils/base64ImageProcessor.py)

`image_to_base64` on a file-path input reads the file's bytes, base64
encodes them and prepends a `data:<mime>;base64,` prefix chosen from the
suffix allow-list; `base64_to_image` strips a `data:` prefix at the
first comma, base64 decodes the payload and hands the bytes to
`PIL.Image.open`.  Bytes are `Nat`s `< 256`.  `base64.b64encode` /
`base64.b64decode` (C library code) are modelled by their documented
behaviour on well-formed input: 3 bytes per 4 alphabet characters with
`=` padding, which is the only shape the encoder produces. -/

/-- The RFC 4648 base64 alphabet used by `base64.b64encode`. -/
def b64chars : List Char :=
  "ABCDEFGHIJKLMNOPQRSTUVWXYZabcdefghijklmnopqrstuvwxyz0123456789+/".toList

/-- The alphabet character of a 6-bit value. -/
def sextet_to_char (n : Nat) : Char := b64chars.getD n 'A'

/-- The 6-bit value of an alphabet character. -/
def char_to_sextet (c : Char) : Nat := b64chars.indexOf c

/-- `base64.b64encode` on a byte list. -/
def b64encode : List Nat → List Char
  | [] => []
  | [a] => [sextet_to_char (a / 4), sextet_to_char (a % 4 * 16), '=', '=']
  | [a, b] => [sextet_to_char (a / 4), sextet_to_char (a % 4 * 16 + b / 16),
      sextet_to_char (b % 16 * 4), '=']
  | a :: b :: c :: rest =>
    sextet_to_char (a / 4) :: sextet_to_char (a % 4 * 16 + b / 16) ::
      sextet_to_char (b % 16 * 4 + c / 64) :: sextet_to_char (c % 64) :: b64encode rest

/-- `base64.b64decode` on well-formed base64 text (alphabet characters
in groups of four with `=` padding only in the final group), the shape
`b64encode` produces. -/
def b64decode : List Char → List Nat
  | c1 :: c2 :: c3 :: c4 :: rest =>
    let s1 := char_to_sextet c1
    let s2 := char_to_sextet c2
    if c3 = '=' then [s1 * 4 + s2 / 16]
    else
      let s3 := char_to_sextet c3
      if c4 = '=' then [s1 * 4 + s2 / 16, s2 % 16 * 16 + s3 / 4]
      else (s1 * 4 + s2 / 16) :: (s2 % 16 * 16 + s3 / 4) ::
        (s3 % 4 * 64 + char_to_sextet c4) :: b64decode rest
  | _ => []

/-- `SUPPORTED_FORMATS` (src/utils/base64ImageProcessor.py lines 13-21). -/
def SUPPORTED_FORMATS : List (List Char × List Char) :=
  [(".png".toList, "image/png".toList),
   (".jpg".toList, "image/jpeg".toList),
   (".jpeg".toList, "image/jpeg".toList),
   (".gif".toList, "image/gif".toList),
   (".bmp".toList, "image/bmp".toList),
   (".webp".toList, "image/webp".toList),
   (".tiff".toList, "image/tiff".toList)]

/-- `image_to_base64` on a file-path input (lines 37-66): the file is
modelled by its lowercased suffix and its content bytes (the existence
check having passed); a suffix outside the allow-list raises
`ValueError`. -/
def image_to_base64 (suffix : List Char) (content : List Nat) :
    Except String (List Char) :=
  match SUPPORTED_FORMATS.lookup suffix with
  | none => .error "ValueError: 不支持的图片格式"
  | some mime => .ok ("data:".toList ++ mime ++ ";base64,".toList ++ b64encode content)

/-- `PIL.Image.open(BytesIO(image_data))`, modelled as wrapping exactly
the byte stream it is handed (PIL's container parsing is out of scope). -/
structure PILImage where
  data : List Nat
deriving DecidableEq

/-- Python `s.split(',', 1)[1]`: everything after the first comma,
`IndexError` when there is none. -/
def py_split_comma_tail (l : List Char) : Except String (List Char) :=
  match l.dropWhile (· ≠ ',') with
  | [] => .error "IndexError: list index out of range"
  | _ :: t => .ok t

/-- `base64_to_image` (lines 98-117). -/
def base64_to_image (s : List Char) : Except String PILImage :=
  if "data:".toList.isPrefixOf s then
    match py_split_comma_tail s with
    | .error e => .error e
    | .ok payload => .ok ⟨b64decode payload⟩
  else .ok ⟨b64decode s⟩

/-! ### Poll-loop unfolding lemmas -/

/-- At the top of an iteration with the deadline already passed, the loop
exits and `TimeoutError` is raised, whatever the script and counters. -/
theorem poll_loop_deadline (cfg : PollConfig) (script : List PollEvent) (dl : Nat → Bool)
    (e r is bs : Nat) (h : ¬ e < cfg.timeout) :
    poll_loop cfg script dl e r is bs = (.TimedOut, ⟨e, r, is, bs⟩) := by
  cases script with
  | nil => simp only [poll_loop]; rw [if_neg h]
  | cons ev rest =>
    cases ev with
    | exn d => simp only [poll_loop]; rw [if_neg h]
    | status s d => simp only [poll_loop]; rw [if_neg h]

/-- A tolerated query exception: increment `retries`, sleep the interval,
poll again. -/
theorem poll_loop_exn_retry (cfg : PollConfig) (d : Nat) (script : List PollEvent)
    (dl : Nat → Bool) (e r is bs : Nat) (h : e < cfg.timeout)
    (h2 : r + 1 ≤ cfg.max_retries) :
    poll_loop cfg (.exn d :: script) dl e r is bs
      = poll_loop cfg script dl (e + d + cfg.interval) (r + 1) (is + 1) bs := by
  simp only [poll_loop]
  rw [if_pos h, if_neg (by omega)]

/-- A query exception pushing `retries` past `max_retries`:
`RuntimeError("查询任务状态失败次数过多")`. -/
theorem poll_loop_exn_fail (cfg : PollConfig) (d : Nat) (script : List PollEvent)
    (dl : Nat → Bool) (e r is bs : Nat) (h : e < cfg.timeout)
    (h2 : cfg.max_retries < r + 1) :
    poll_loop cfg (.exn d :: script) dl e r is bs
      = (.PollingFailed, ⟨e + d, r + 1, is, bs⟩) := by
  simp only [poll_loop]
  rw [if_pos h, if_pos (by omega)]

/-- A non-terminal status (neither `SUCCEEDED` nor `FAILED`): sleep the
interval and poll again. -/
theorem poll_loop_pending (cfg : PollConfig) (s : String) (d : Nat)
    (script : List PollEvent) (dl : Nat → Bool) (e r is bs : Nat)
    (h : e < cfg.timeout) (hs1 : s ≠ "SUCCEEDED") (hs2 : s ≠ "FAILED") :
    poll_loop cfg (.status s d :: script) dl e r is bs
      = poll_loop cfg script dl (e + d + cfg.interval) r (is + 1) bs := by
  simp only [poll_loop]
  rw [if_pos h, if_neg hs1, if_neg hs2]

/-- `SUCCEEDED` with the download loop returning on attempt `a`. -/
theorem poll_loop_succeeded_ok (cfg : PollConfig) (d : Nat) (script : List PollEvent)
    (dl : Nat → Bool) (e r is bs a b : Nat) (h : e < cfg.timeout)
    (hdl : download_from cfg.max_retries 0 0 dl = .ok a b) :
    poll_loop cfg (.status "SUCCEEDED" d :: script) dl e r is bs
      = (.Downloaded a, ⟨e + d, r, is, bs + b⟩) := by
  simp only [poll_loop]
  rw [if_pos h, if_pos trivial, hdl]

/-- `SUCCEEDED` with the download loop exhausting its retries:
`RuntimeError("图片下载失败")`. -/
theorem poll_loop_succeeded_err (cfg : PollConfig) (d : Nat) (script : List PollEvent)
    (dl : Nat → Bool) (e r is bs b : Nat) (h : e < cfg.timeout)
    (hdl : download_from cfg.max_retries 0 0 dl = .err b) :
    poll_loop cfg (.status "SUCCEEDED" d :: script) dl e r is bs
      = (.DownloadFailed, ⟨e + d, r, is, bs + b⟩) := by
  simp only [poll_loop]
  rw [if_pos h, if_pos trivial, hdl]

/-- A first-attempt download success. -/
theorem download_from_first (mr : Nat) (dl : Nat → Bool) (h : 0 < mr)
    (hdl : dl 0 = true) : download_from mr 0 0 dl = .ok 1 0 := by
  unfold download_from
  simp [h, hdl]

/-! ### Claim theorems C1-C4 -/

/-- Claim C1: in the outpaint poll loop (`get_task_result`), if the elapsed
wall-clock time since the loop started is at least the configured timeout
when a loop iteration would begin, the loop terminates with `TimeoutError`
(not `PollingFailed`), for every poll-response history and regardless of
the current transport-retry counter value. -/
theorem claim_C1_timeout_priority (cfg : PollConfig) (script : List PollEvent)
    (dl : Nat → Bool) (e r is bs : Nat) (h : cfg.timeout ≤ e) :
    poll_loop cfg script dl e r is bs = (.TimedOut, ⟨e, r, is, bs⟩) ∧
      (poll_loop cfg script dl e r is bs).1 ≠ .PollingFailed := by
  have h1 := poll_loop_deadline cfg script dl e r is bs (by omega)
  exact ⟨h1, by rw [h1]; simp⟩

/-- Witness for C1: timeout 300 already elapsed, retry counter 0 (below the
maximum 3), an all-pending history: the loop times out. -/
theorem claim_C1_witness :
    poll_loop defaultPollConfig [.status "PENDING" 1] (fun _ => true) 300 0 0 0
        = (.TimedOut, ⟨300, 0, 0, 0⟩) ∧
      (poll_loop defaultPollConfig [.status "PENDING" 1] (fun _ => true) 300 0 0 0).1
        ≠ .PollingFailed :=
  claim_C1_timeout_priority defaultPollConfig [.status "PENDING" 1] (fun _ => true)
    300 0 0 0 (by decide)

/-- Claim C2: each transport/query error while polling increments the retry
counter; while the counter stays at or below `max_retries` the loop waits
one interval and polls again, and it raises `PollingFailed` exactly when
the counter exceeds `max_retries`.  The retry does not extend the overall
deadline (third conjunct).  For the scripted history
`[query exception, SUCCEEDED]` with a successful first download, the loop
returns `Downloaded` with the retry counter equal to 1 (fourth conjunct). -/
theorem claim_C2_retry_counter (cfg : PollConfig) :
    (∀ d script dl e r is bs, e < cfg.timeout → r + 1 ≤ cfg.max_retries →
        poll_loop cfg (.exn d :: script) dl e r is bs
          = poll_loop cfg script dl (e + d + cfg.interval) (r + 1) (is + 1) bs) ∧
    (∀ d script dl e r is bs, e < cfg.timeout → cfg.max_retries < r + 1 →
        (poll_loop cfg (.exn d :: script) dl e r is bs).1 = .PollingFailed) ∧
    (∀ d script dl e r is bs, e < cfg.timeout → r + 1 ≤ cfg.max_retries →
        cfg.timeout ≤ e + d + cfg.interval →
        (poll_loop cfg (.exn d :: script) dl e r is bs).1 = .TimedOut) ∧
    (∀ d1 d2 dl, 0 < cfg.timeout → d1 + cfg.interval < cfg.timeout →
        1 ≤ cfg.max_retries → dl 0 = true →
        poll_loop cfg [.exn d1, .status "SUCCEEDED" d2] dl 0 0 0 0
          = (.Downloaded 1, ⟨d1 + cfg.interval + d2, 1, 1, 0⟩)) := by
  refine ⟨?_, ?_, ?_, ?_⟩
  · intro d script dl e r is bs h h2
    exact poll_loop_exn_retry cfg d script dl e r is bs h h2
  · intro d script dl e r is bs h h2
    rw [poll_loop_exn_fail cfg d script dl e r is bs h h2]
  · intro d script dl e r is bs h h2 h3
    rw [poll_loop_exn_retry cfg d script dl e r is bs h h2,
      poll_loop_deadline cfg script dl _ _ _ _ (by omega)]
  · intro d1 d2 dl ht h1 hm hdl
    rw [poll_loop_exn_retry cfg d1 _ dl 0 0 0 0 (by omega) (by omega),
      poll_loop_succeeded_ok cfg d2 [] dl _ _ _ _ 1 0 (by omega)
        (download_from_first cfg.max_retries dl (by omega) hdl)]
    simp

/-- Witness for C2: default configuration, one flaky status query taking
1s, then `SUCCEEDED` after 1s with a clean download: `Downloaded` on the
first attempt, retry counter 1, one interval sleep. -/
theorem claim_C2_witness :
    poll_loop defaultPollConfig [.exn 1, .status "SUCCEEDED" 1] (fun _ => true) 0 0 0 0
      = (.Downloaded 1, ⟨1 + 3 + 1, 1, 1, 0⟩) :=
  (claim_C2_retry_counter defaultPollConfig).2.2.2 1 1 (fun _ => true)
    (by decide) (by decide) (by decide) rfl

/-- Claim C3: for the scripted status sequence
`[PENDING, PENDING, SUCCEEDED]`, all within the timeout and with a
successful first download attempt, the loop terminates `Downloaded` with
exactly 2 interval sleeps — one after each `PENDING`, none after
`SUCCEEDED`. -/
theorem claim_C3_two_interval_waits (cfg : PollConfig) (d1 d2 d3 : Nat)
    (dl : Nat → Bool) (ht : 0 < cfg.timeout)
    (h1 : d1 + cfg.interval < cfg.timeout)
    (h2 : d1 + cfg.interval + d2 + cfg.interval < cfg.timeout)
    (hm : 0 < cfg.max_retries) (hdl : dl 0 = true) :
    poll_loop cfg
        [.status "PENDING" d1, .status "PENDING" d2, .status "SUCCEEDED" d3] dl 0 0 0 0
      = (.Downloaded 1, ⟨d1 + cfg.interval + d2 + cfg.interval + d3, 0, 2, 0⟩) := by
  rw [poll_loop_pending cfg "PENDING" d1 _ dl 0 0 0 0 (by omega) (by decide) (by decide),
    poll_loop_pending cfg "PENDING" d2 _ dl _ 0 1 0 (by omega) (by decide) (by decide),
    poll_loop_succeeded_ok cfg d3 [] dl _ 0 2 0 1 0 (by omega)
      (download_from_first cfg.max_retries dl hm hdl)]
  simp

/-- Witness for C3: default configuration, each status query taking 1s. -/
theorem claim_C3_witness :
    poll_loop defaultPollConfig
        [.status "PENDING" 1, .status "PENDING" 1, .status "SUCCEEDED" 1]
        (fun _ => true) 0 0 0 0
      = (.Downloaded 1, ⟨1 + 3 + 1 + 3 + 1, 0, 2, 0⟩) :=
  claim_C3_two_interval_waits defaultPollConfig 1 1 1 (fun _ => true)
    (by decide) (by decide) (by decide) (by decide) rfl

/-- Claim C4: in the download phase after `SUCCEEDED`, the result URL is
fetched up to `max_retries` (= 3) times with a 2-second backoff between
attempts: two transport failures followed by a success yield `Downloaded`
on the 3rd attempt (2 backoff sleeps); three consecutive failures yield
`DownloadFailed`; and no attempt beyond the 3rd is ever made (the result
depends only on the first 3 scripted attempt outcomes). -/
theorem claim_C4_download_retries (cfg : PollConfig) (hmr : cfg.max_retries = 3)
    (ht : 0 < cfg.timeout) :
    (∀ d dl, dl 0 = false → dl 1 = false → dl 2 = true →
        poll_loop cfg [.status "SUCCEEDED" d] dl 0 0 0 0
          = (.Downloaded 3, ⟨d, 0, 0, 2⟩)) ∧
    (∀ d dl, (∀ i, i < 3 → dl i = false) →
        poll_loop cfg [.status "SUCCEEDED" d] dl 0 0 0 0
          = (.DownloadFailed, ⟨d, 0, 0, 2⟩)) ∧
    (∀ dl dl2, (∀ i, i < 3 → dl i = dl2 i) →
        download_from 3 0 0 dl = download_from 3 0 0 dl2) := by
  refine ⟨?_, ?_, ?_⟩
  · intro d dl h0 h1 h2
    have hd : download_from cfg.max_retries 0 0 dl = .ok 3 2 := by
      rw [hmr]
      simp [download_from, h0, h1, h2]
    rw [poll_loop_succeeded_ok cfg d [] dl 0 0 0 0 3 2 (by omega) hd]
    simp
  · intro d dl h
    have hd : download_from cfg.max_retries 0 0 dl = .err 2 := by
      rw [hmr]
      simp [download_from, h 0 (by omega), h 1 (by omega), h 2 (by omega)]
    rw [poll_loop_succeeded_err cfg d [] dl 0 0 0 0 2 (by omega) hd]
    simp
  · intro dl dl2 hagree
    have g0 : dl2 0 = dl 0 := (hagree 0 (by omega)).symm
    have g1 : dl2 1 = dl 1 := (hagree 1 (by omega)).symm
    have g2 : dl2 2 = dl 2 := (hagree 2 (by omega)).symm
    cases h0 : dl 0 <;> cases h1 : dl 1 <;> cases h2 : dl 2 <;>
      simp [download_from, h0, h1, h2, g0, g1, g2]

/-- Witness for C4: default configuration, downloads failing on the first
two attempts and succeeding on the third. -/
theorem claim_C4_witness :
    poll_loop defaultPollConfig [.status "SUCCEEDED" 1]
        (fun i => decide (2 ≤ i)) 0 0 0 0
      = (.Downloaded 3, ⟨1, 0, 0, 2⟩) :=
  (claim_C4_download_retries defaultPollConfig rfl (by decide)).1 1
    (fun i => decide (2 ≤ i)) rfl rfl rfl

/-! ### Claim theorems C5, C6, C7, C9 -/

/-- Claim C5: when the orchestrator routes a message to the Outpainting
intent but `last_generated_image` is `None` or names a file that does not
exist, the guidance message is rendered and the dispatch stops: the
extension client is never invoked, so zero network calls are issued by
this branch. -/
theorem claim_C5_outpaint_guard (last : Option (List Char)) (pe : List Char → Bool)
    (h : last = none ∨ ∃ p, last = some p ∧ pe p = false) :
    (dispatch_outpainting last pe).extender_calls = [] ∧
      outpaint_guidance_message ∈ (dispatch_outpainting last pe).messages := by
  rcases h with h | ⟨p, hp, hpe⟩
  · subst h
    exact ⟨rfl, by simp [dispatch_outpainting]⟩
  · subst hp
    simp [dispatch_outpainting, hpe]

/-- Witness for C5: null pointer. -/
theorem claim_C5_witness :
    (dispatch_outpainting none (fun _ => true)).extender_calls = [] ∧
      outpaint_guidance_message ∈ (dispatch_outpainting none (fun _ => true)).messages :=
  claim_C5_outpaint_guard none (fun _ => true) (Or.inl rfl)

/-- Claim C6 fails on the code (code bug): for every successful extension
client result — the dict of src/aliyunImageExtender.py lines 145-150 —
the orchestrator's `extend_image` subscripts that string-keyed dict with
the integer 0 (`saved_files[0]`, line 221), raising `KeyError(0)`; the
catch-all handler renders an inline error, no thumbnail and no
open-full-image button are rendered, and `last_generated_image` is not
updated.  The claimed success rendering is unreachable. -/
theorem claim_C6_success_render_bug (prompt local_file result_url : List Char)
    (task_info : List (PyKey × PyObj)) (file_size : ℚ) :
    demo_extend_image prompt
        (.ok (extend_result_dict local_file result_url task_info file_size))
      = ([.text ("\n\n已扩展图像: ".toList ++ prompt ++ ['\n']),
          .text "图像扩展过程中发生错误: 0\n".toList], none) := by
  rfl

/-- Claim C7: `classify_intent` never raises to its caller — it is total,
always returning one of the three intents — and whenever its `try` body
fails (transport error or parse failure), the result is `OTHER`. -/
theorem claim_C7_classifier_never_raises :
    (∀ call, classify_intent call = .IMAGE_GENERATION ∨
        classify_intent call = .OUTPAINTING ∨ classify_intent call = .OTHER) ∧
    (∀ call e, classify_intent_body call = .error e → classify_intent call = .OTHER) := by
  constructor
  · intro call
    cases h : classify_intent call with
    | IMAGE_GENERATION => exact Or.inl rfl
    | OUTPAINTING => exact Or.inr (Or.inl rfl)
    | OTHER => exact Or.inr (Or.inr rfl)
  · intro call e h
    unfold classify_intent
    rw [h]

/-- Witness for C7: a transport failure yields `OTHER`. -/
theorem claim_C7_witness :
    classify_intent (.error "requests.exceptions.ConnectionError") = .OTHER :=
  claim_C7_classifier_never_raises.2 (.error "requests.exceptions.ConnectionError")
    "requests.exceptions.ConnectionError" rfl

/-- Claim C9: for every prompt routed to Outpainting, the direction hint
parsed from the prompt is passed to the client only as the unused
`direction` kwarg; the submitted request's per-edge scales are always the
defaults 1.2 (= 6/5), whatever direction the prompt names. -/
theorem claim_C9_direction_never_alters_scales (prompt save_dir : List Char) :
    (submit_request_parameters
        (demo_extend_kwargs (parse_outpainting_direction prompt) save_dir)).top_scale
        = .num (6 / 5) ∧
    (submit_request_parameters
        (demo_extend_kwargs (parse_outpainting_direction prompt) save_dir)).bottom_scale
        = .num (6 / 5) ∧
    (submit_request_parameters
        (demo_extend_kwargs (parse_outpainting_direction prompt) save_dir)).left_scale
        = .num (6 / 5) ∧
    (submit_request_parameters
        (demo_extend_kwargs (parse_outpainting_direction prompt) save_dir)).right_scale
        = .num (6 / 5) :=
  ⟨rfl, rfl, rfl, rfl⟩

/-! ### Generation download-loop lemmas -/

/-- One GET is issued per result URL, in response order. -/
theorem generate_ok_from_gets (save_dir pfx : List Char) (get : List Char → HttpResponse)
    (urls : List (List Char)) : ∀ i, (generate_ok_from save_dir pfx get i urls).2.2 = urls := by
  induction urls with
  | nil => intro i; rfl
  | cons u rest ih => intro i; simp [generate_ok_from, ih]

/-- The writes pair each saved path with the raw `.content` of the GET
for its URL. -/
theorem generate_ok_from_writes (save_dir pfx : List Char) (get : List Char → HttpResponse)
    (urls : List (List Char)) :
    ∀ i, (generate_ok_from save_dir pfx get i urls).2.1
      = (generate_ok_from save_dir pfx get i urls).1.zip
          (urls.map fun u => (get u).content) := by
  induction urls with
  | nil => intro i; rfl
  | cons u rest ih => intro i; simp [generate_ok_from, ih]

/-- Every written path is in the returned `saved_files` list. -/
theorem generate_ok_from_paths (save_dir pfx : List Char) (get : List Char → HttpResponse)
    (urls : List (List Char)) :
    ∀ i, ((generate_ok_from save_dir pfx get i urls).2.1.map Prod.fst)
      = (generate_ok_from save_dir pfx get i urls).1 := by
  induction urls with
  | nil => intro i; rfl
  | cons u rest ih => intro i; simp [generate_ok_from, ih]

/-- The branch reads each response only through `.content`. -/
theorem generate_ok_from_content_only (save_dir pfx : List Char)
    (get get2 : List Char → HttpResponse) (urls : List (List Char))
    (h : ∀ u, (get2 u).content = (get u).content) :
    ∀ i, generate_ok_from save_dir pfx get2 i urls
      = generate_ok_from save_dir pfx get i urls := by
  induction urls with
  | nil => intro i; rfl
  | cons u rest ih => intro i; simp [generate_ok_from, ih, h u]

/-- Claim C10: in `generate_image`'s HTTP-OK branch, each result asset is
downloaded with a single GET (one per URL, never retried), the GET's
HTTP status is never checked (the outcome depends only on `.content`),
and whatever bytes the GET returns are written to the destination file,
whose path is included in the returned list. -/
theorem claim_C10_unchecked_download (save_dir pfx : List Char)
    (urls : List (List Char)) (get : List Char → HttpResponse) :
    (generate_ok_branch save_dir pfx urls get).2.2 = urls ∧
    (generate_ok_branch save_dir pfx urls get).2.1
      = (generate_ok_branch save_dir pfx urls get).1.zip
          (urls.map fun u => (get u).content) ∧
    ((generate_ok_branch save_dir pfx urls get).2.1.map Prod.fst)
      = (generate_ok_branch save_dir pfx urls get).1 ∧
    (∀ get2, (∀ u, (get2 u).content = (get u).content) →
        generate_ok_branch save_dir pfx urls get2
          = generate_ok_branch save_dir pfx urls get) :=
  ⟨generate_ok_from_gets save_dir pfx get urls 0,
   generate_ok_from_writes save_dir pfx get urls 0,
   generate_ok_from_paths save_dir pfx get urls 0,
   fun get2 h => generate_ok_from_content_only save_dir pfx get get2 urls h 0⟩

/-- Witness for C10: a response with failure status 500 and a vendor
error body is written and reported exactly like a success. -/
theorem claim_C10_witness :
    generate_ok_branch "d".toList "p".toList ["http://h/a.png".toList]
        (fun _ => ⟨500, [60, 69, 114, 114, 62]⟩)
      = generate_ok_branch "d".toList "p".toList ["http://h/a.png".toList]
        (fun _ => ⟨200, [60, 69, 114, 114, 62]⟩) :=
  (claim_C10_unchecked_download "d".toList "p".toList ["http://h/a.png".toList]
      (fun _ => ⟨200, [60, 69, 114, 114, 62]⟩)).2.2.2
    (fun _ => ⟨500, [60, 69, 114, 114, 62]⟩) (fun _ => rfl)

/-! ### Base64 codec lemmas -/

/-- Decoding the alphabet character of a 6-bit value recovers it
(checked over all 64 values). -/
theorem char_to_sextet_sextet_aux :
    ∀ n : Fin 64, char_to_sextet (sextet_to_char n.val) = n.val := by decide

theorem char_to_sextet_sextet (n : Nat) (h : n < 64) :
    char_to_sextet (sextet_to_char n) = n :=
  char_to_sextet_sextet_aux ⟨n, h⟩

/-- An alphabet character is in the alphabet or is the out-of-range
default `A`. -/
theorem sextet_to_char_mem_or (n : Nat) :
    sextet_to_char n ∈ b64chars ∨ sextet_to_char n = 'A' := by
  unfold sextet_to_char
  rcases Nat.lt_or_ge n b64chars.length with h | h
  · left
    rw [List.getD_eq_getElem b64chars 'A' h]
    exact List.getElem_mem h
  · right
    exact List.getD_eq_default b64chars 'A' h

/-- No sextet encodes to the padding character. -/
theorem sextet_to_char_ne_pad (n : Nat) : sextet_to_char n ≠ '=' := by
  rcases sextet_to_char_mem_or n with h | h
  · intro he
    rw [he] at h
    revert h
    decide
  · rw [h]
    intro he
    cases he

/-- No sextet encodes to a comma. -/
theorem sextet_to_char_ne_comma (n : Nat) : sextet_to_char n ≠ ',' := by
  rcases sextet_to_char_mem_or n with h | h
  · intro he
    rw [he] at h
    revert h
    decide
  · rw [h]
    intro he
    cases he

/-- Decoding inverts encoding on byte lists. -/
theorem b64decode_b64encode (bs : List Nat) (h : ∀ x ∈ bs, x < 256) :
    b64decode (b64encode bs) = bs := by
  induction bs using b64encode.induct with
  | case1 => rfl
  | case2 a =>
    have ha : a < 256 := h a (by simp)
    simp only [b64encode, b64decode]
    rw [if_pos trivial]
    rw [char_to_sextet_sextet _ (by omega), char_to_sextet_sextet _ (by omega)]
    have : a / 4 * 4 + a % 4 * 16 / 16 = a := by omega
    rw [this]
  | case3 a b =>
    have ha : a < 256 := h a (by simp)
    have hb : b < 256 := h b (by simp)
    simp only [b64encode, b64decode]
    rw [if_neg (sextet_to_char_ne_pad _), if_pos trivial]
    rw [char_to_sextet_sextet _ (by omega), char_to_sextet_sextet _ (by omega),
      char_to_sextet_sextet _ (by omega)]
    have e1 : (a / 4) * 4 + (a % 4 * 16 + b / 16) / 16 = a := by omega
    have e2 : (a % 4 * 16 + b / 16) % 16 * 16 + b % 16 * 4 / 4 = b := by omega
    rw [e1, e2]
  | case4 a b c rest ih =>
    have ha : a < 256 := h a (by simp)
    have hb : b < 256 := h b (by simp)
    have hc : c < 256 := h c (by simp)
    have hrest : ∀ x ∈ rest, x < 256 := fun x hx => h x (by simp [hx])
    simp only [b64encode, b64decode]
    rw [if_neg (sextet_to_char_ne_pad _), if_neg (sextet_to_char_ne_pad _)]
    rw [char_to_sextet_sextet _ (by omega), char_to_sextet_sextet _ (by omega),
      char_to_sextet_sextet _ (by omega), char_to_sextet_sextet _ (by omega)]
    have e1 : (a / 4) * 4 + (a % 4 * 16 + b / 16) / 16 = a := by omega
    have e2 : (a % 4 * 16 + b / 16) % 16 * 16 + (b % 16 * 4 + c / 64) / 4 = b := by omega
    have e3 : (b % 16 * 4 + c / 64) % 4 * 64 + c % 64 = c := by omega
    rw [e1, e2, e3, ih hrest]

/-- Encoded payloads never contain a comma. -/
theorem b64encode_no_comma (bs : List Nat) : ',' ∉ b64encode bs := by
  induction bs using b64encode.induct with
  | case1 => simp [b64encode]
  | case2 a =>
    simp only [b64encode, List.mem_cons, List.not_mem_nil, or_false]
    intro hmem
    rcases hmem with h | h | h | h
    · exact sextet_to_char_ne_comma _ h.symm
    · exact sextet_to_char_ne_comma _ h.symm
    · cases h
    · cases h
  | case3 a b =>
    simp only [b64encode, List.mem_cons, List.not_mem_nil, or_false]
    intro hmem
    rcases hmem with h | h | h | h
    · exact sextet_to_char_ne_comma _ h.symm
    · exact sextet_to_char_ne_comma _ h.symm
    · exact sextet_to_char_ne_comma _ h.symm
    · cases h
  | case4 a b c rest ih =>
    simp only [b64encode, List.mem_cons]
    intro hmem
    rcases hmem with h | h | h | h | h
    · exact sextet_to_char_ne_comma _ h.symm
    · exact sextet_to_char_ne_comma _ h.symm
    · exact sextet_to_char_ne_comma _ h.symm
    · exact sextet_to_char_ne_comma _ h.symm
    · exact ih h

/-- `dropWhile` stops at the first comma. -/
theorem dropWhile_append_comma (l1 l2 : List Char) (h : ',' ∉ l1) :
    (l1 ++ ',' :: l2).dropWhile (· ≠ ',') = ',' :: l2 := by
  induction l1 with
  | nil => simp [List.dropWhile]
  | cons c t ih =>
    have hc : c ≠ ',' := fun e => h (e ▸ List.mem_cons_self c t)
    have ht : ',' ∉ t := fun e => h (List.mem_cons_of_mem c e)
    rw [List.cons_append, List.dropWhile_cons, if_pos (decide_eq_true hc)]
    exact ih ht

/-- A successful lookup returns one of the stored values. -/
theorem lookup_mem_values {α β : Type} [BEq α] (l : List (α × β)) (a : α) (b : β)
    (h : l.lookup a = some b) : b ∈ l.map Prod.snd := by
  induction l with
  | nil => simp [List.lookup] at h
  | cons p t ih =>
    cases p with
    | mk k v =>
      simp only [List.lookup] at h
      cases hk : a == k with
      | true =>
        rw [hk] at h
        simp only [Option.some.injEq] at h
        subst h
        simp
      | false =>
        rw [hk] at h
        simp [ih h]

/-- The mime types of the allow-list contain no comma. -/
theorem supported_mime_no_comma (mime : List Char)
    (h : mime ∈ SUPPORTED_FORMATS.map Prod.snd) : ',' ∉ mime := by
  simp only [SUPPORTED_FORMATS, List.map_cons, List.map_nil, List.mem_cons,
    List.not_mem_nil, or_false] at h
  rcases h with h | h | h | h | h | h | h <;> subst h <;> decide

/-- Claim C8: for every byte sequence in a supported image container
format — modelled as content bytes plus a suffix in the allow-list —
decoding the codec's encoding yields the same bytes:
`base64_to_image (image_to_base64 suffix content)` hands `PIL.Image.open`
exactly `content`. -/
theorem claim_C8_roundtrip (suffix mime : List Char) (content : List Nat)
    (hb : ∀ x ∈ content, x < 256)
    (hs : SUPPORTED_FORMATS.lookup suffix = some mime) :
    ∃ enc, image_to_base64 suffix content = .ok enc ∧
      base64_to_image enc = .ok ⟨content⟩ := by
  refine ⟨"data:".toList ++ mime ++ ";base64,".toList ++ b64encode content, ?_, ?_⟩
  · unfold image_to_base64
    rw [hs]
  · have hmime : ',' ∉ mime :=
      supported_mime_no_comma mime (lookup_mem_values SUPPORTED_FORMATS suffix mime hs)
    have hsplit : "data:".toList ++ mime ++ ";base64,".toList ++ b64encode content
        = ("data:".toList ++ mime ++ ";base64".toList) ++ ',' :: b64encode content := by
      simp [List.append_assoc]
    have hpre : ',' ∉ "data:".toList ++ mime ++ ";base64".toList := by
      intro hmem
      rcases List.mem_append.mp hmem with hmem | hmem
      · rcases List.mem_append.mp hmem with hmem | hmem
        · revert hmem; decide
        · exact hmime hmem
      · revert hmem; decide
    unfold base64_to_image
    rw [if_pos ?pref]
    case pref =>
      rw [List.isPrefixOf_iff_prefix, List.append_assoc, List.append_assoc]
      exact List.prefix_append _ _
    unfold py_split_comma_tail
    rw [hsplit, dropWhile_append_comma _ _ hpre]
    show Except.ok (PILImage.mk (b64decode (b64encode content))) = Except.ok ⟨content⟩
    rw [b64decode_b64encode content hb]

/-- Witness for C8: a 3-byte PNG-suffixed file round-trips. -/
theorem claim_C8_witness :
    ∃ enc, image_to_base64 ".png".toList [137, 80, 71] = .ok enc ∧
      base64_to_image enc = .ok ⟨[137, 80, 71]⟩ :=
  claim_C8_roundtrip ".png".toList "image/png".toList [137, 80, 71]
    (by decide) (by decide)

end DeepDemo

